import Mathlib

/-!
# AutoPartFe API access layer — verification of the specification

Shallow embedding of the core API access layer of the AutoPartFe front end:
the token store (`tokenManager`), the axios request interceptor, the
response interceptor / refresh coordinator (`isRefreshing`, `failedQueue`,
`processQueue`, the 401 handler), the error normalizer `handleApiError`,
and the React Query client defaults (`queryClient.ts`).

Asynchronous control flow is embedded by splitting the 401 response
handler at its single suspension point (the awaited refresh POST):
`handle401` runs the handler from entry up to that suspension point (or to
its return when no suspension is reached), and `refreshSuccess` /
`refreshFailure` run the continuation once the awaited refresh call
settles.  Side effects (storage writes, settling queued deferreds,
re-issuing requests, navigation) are recorded as an explicit action trace.
-/

namespace AutoPartFe

/-- JavaScript truthiness of a `string | null | undefined` value:
`null`/`undefined` and the empty string are falsy. -/
def jsTruthy : Option String → Bool
  | none => false
  | some s => s ≠ ""

/-- The durable client-side storage: the two entries kept under
`TOKEN_STORAGE_KEY` and `REFRESH_TOKEN_STORAGE_KEY`.  `none` models an
absent entry (`localStorage.getItem` returning `null`). -/
structure Storage where
  authToken : Option String
  refreshToken : Option String
deriving Repr, DecidableEq

namespace tokenManager

/-- `tokenManager.getToken` -/
def getToken (s : Storage) : Option String := s.authToken

/-- `tokenManager.setToken` -/
def setToken (s : Storage) (t : String) : Storage := { s with authToken := some t }

/-- `tokenManager.getRefreshToken` -/
def getRefreshToken (s : Storage) : Option String := s.refreshToken

/-- `tokenManager.setRefreshToken` -/
def setRefreshToken (s : Storage) (t : String) : Storage := { s with refreshToken := some t }

/-- `tokenManager.clearTokens` -/
def clearTokens (_ : Storage) : Storage := ⟨none, none⟩

/-- `tokenManager.hasToken`: `!!tokenManager.getToken()`. -/
def hasToken (s : Storage) : Bool := jsTruthy (getToken s)

end tokenManager

/-- `isAuthenticated` from the auth hooks module: `tokenManager.hasToken()`. -/
def isAuthenticated (s : Storage) : Bool := tokenManager.hasToken s

/-- An HTTP request as the interceptors see it: an id to tell concurrent
requests apart, the `Authorization` header, and the `_retry` marker the
response interceptor attaches (`false` models the marker being absent). -/
structure Request where
  id : Nat
  authHeader : Option String
  retry : Bool
deriving Repr, DecidableEq

/-- The request interceptor: `const token = tokenManager.getToken();
if (token && config.headers) config.headers.Authorization = ...`. -/
def requestInterceptor (s : Storage) (c : Request) : Request :=
  match tokenManager.getToken s with
  | some t => if t ≠ "" then { c with authHeader := some ("Bearer " ++ t) } else c
  | none => c

/-- An axios error as the response interceptor sees it:
`error.response?.status` and `error.config`. -/
structure AxiosErrorInfo where
  status : Option Nat
  config : Request
deriving Repr, DecidableEq

/-- The process-wide state of the refresh coordinator: the storage, the
module-level `isRefreshing` flag and `failedQueue`, and the value assigned
to `window.location.href` when a redirect has happened (`none` before). -/
structure ClientState where
  storage : Storage
  isRefreshing : Bool
  failedQueue : List Request
  location : Option String
deriving Repr, DecidableEq

/-- The coordinator state at module load: `isRefreshing = false`,
`failedQueue = []`, no navigation performed. -/
def initialClientState (s : Storage) : ClientState :=
  ⟨s, false, [], none⟩

/-- How one run of the 401 response handler ends, up to its only
suspension point (the awaited refresh POST). -/
inductive StepResult where
  /-- `return Promise.reject(error)`: the original error propagates
  unchanged (non-401 status, or the `_retry` marker already set). -/
  | passThrough
  /-- a deferred completion for this caller was pushed onto
  `failedQueue` (a refresh was already in flight). -/
  | queued
  /-- no refresh token: tokens cleared, redirect to `/login`, and
  `return Promise.reject(error)` with the original error. -/
  | rejectAfterClear
  /-- the handler marked the request, set `isRefreshing`, and is awaiting
  `axios.post(.../token/refresh, { refreshToken })`. -/
  | awaitingRefresh (refreshTok : String) (origReq : Request)
deriving Repr, DecidableEq

/-- `true` exactly on `StepResult.awaitingRefresh`: the handler issued a
refresh network call. -/
def StepResult.isRefreshStart : StepResult → Bool
  | .awaitingRefresh _ _ => true
  | _ => false

/-- The 401 response handler (`apiClient.interceptors.response`, error
branch), run from entry to its suspension point or return.  Mirrors the
source line by line: the `status === 401 && !originalRequest._retry`
guard, the `isRefreshing` queueing branch, `_retry = true`,
`isRefreshing = true`, the falsy-refresh-token branch (clear tokens,
redirect, reject — note: before the `try`/`finally`), and otherwise the
awaited refresh POST. -/
def handle401 (st : ClientState) (err : AxiosErrorInfo) : ClientState × StepResult :=
  let originalRequest := err.config
  if err.status = some 401 ∧ originalRequest.retry = false then
    if st.isRefreshing then
      ({ st with failedQueue := st.failedQueue ++ [originalRequest] }, .queued)
    else
      let originalRequest := { originalRequest with retry := true }
      let st := { st with isRefreshing := true }
      match tokenManager.getRefreshToken st.storage with
      | none =>
          ({ st with storage := tokenManager.clearTokens st.storage,
                     location := some "/login" }, .rejectAfterClear)
      | some rt =>
          if rt = "" then
            ({ st with storage := tokenManager.clearTokens st.storage,
                       location := some "/login" }, .rejectAfterClear)
          else
            (st, .awaitingRefresh rt originalRequest)
  else
    (st, .passThrough)

/-- The body of the refresh endpoint's response:
`{ token, refreshToken? }`. -/
structure RefreshResponse where
  token : String
  refreshToken : Option String
deriving Repr, DecidableEq

/-- An observable side effect of the refresh continuation, in the order it
is performed. -/
inductive Action where
  /-- `tokenManager.setToken(newToken)` -/
  | writeToken (t : String)
  /-- `tokenManager.setRefreshToken(newRefreshToken)` -/
  | writeRefreshToken (t : String)
  /-- `prom.resolve(token)` for a queued deferred; the queued caller then
  re-issues its original request through `apiClient`. -/
  | resolveQueued (req : Request) (tok : String)
  /-- `prom.reject(error)` for a queued deferred. -/
  | rejectQueued (req : Request)
  /-- `tokenManager.clearTokens()` -/
  | clearStore
  /-- `window.location.href = route` -/
  | navigate (route : String)
  /-- `apiClient(originalRequest)`: the original failing request is
  re-issued. -/
  | reissue (req : Request)
deriving Repr, DecidableEq

/-- `true` exactly on the two actions that settle a queued deferred. -/
def Action.isSettle : Action → Bool
  | .resolveQueued _ _ => true
  | .rejectQueued _ => true
  | _ => false

/-- The continuation of the 401 handler when the awaited refresh POST
resolves (the `try` body after the `await`, then the `finally`): persist
the new token (and the new refresh token when truthy), drain the queue
with success via `processQueue(null, newToken)`, set the bearer header on
the original request and re-issue it, and reset `isRefreshing`.  Returns
the new state, the action trace, and the re-issued original request. -/
def refreshSuccess (st : ClientState) (orig : Request) (resp : RefreshResponse) :
    ClientState × List Action × Request :=
  let storage₁ := tokenManager.setToken st.storage resp.token
  let storage₂ :=
    if jsTruthy resp.refreshToken then
      tokenManager.setRefreshToken storage₁ (resp.refreshToken.getD "")
    else storage₁
  let retried := { orig with authHeader := some ("Bearer " ++ resp.token) }
  let acts :=
    [Action.writeToken resp.token]
    ++ (if jsTruthy resp.refreshToken then
          [Action.writeRefreshToken (resp.refreshToken.getD "")]
        else [])
    ++ st.failedQueue.map (fun q => Action.resolveQueued q resp.token)
    ++ [Action.reissue retried]
  ({ st with storage := storage₂, failedQueue := [], isRefreshing := false },
   acts, retried)

/-- The continuation of the 401 handler when the awaited refresh POST
rejects (the `catch` branch, then the `finally`): drain the queue with
failure via `processQueue(refreshError)`, clear both tokens, redirect to
`/login`, propagate the refresh error, and reset `isRefreshing`. -/
def refreshFailure (st : ClientState) : ClientState × List Action :=
  let acts :=
    st.failedQueue.map Action.rejectQueued
    ++ [Action.clearStore, Action.navigate "/login"]
  ({ st with storage := tokenManager.clearTokens st.storage,
             failedQueue := [], isRefreshing := false,
             location := some "/login" },
   acts)

/-- Run the 401 handler for a batch of error responses arriving back to
back on the event loop, each handler running to its suspension point or
return before the next starts; collects the per-handler results. -/
def runBatch (st : ClientState) : List AxiosErrorInfo → ClientState × List StepResult
  | [] => (st, [])
  | e :: es =>
      let (st₁, r) := handle401 st e
      let (st₂, rs) := runBatch st₁ es
      (st₂, r :: rs)

/-- The body `response.data` of a backend error response, as typed in the
source: `{ message?: string; error?: string }`. -/
structure BackendData where
  message : Option String
  error : Option String
deriving Repr, DecidableEq

/-- `axiosError.response`: a status and an optional JSON body. -/
structure BackendResponse where
  status : Nat
  data : Option BackendData
deriving Repr, DecidableEq

/-- A value reaching `handleApiError`: an axios error
(`axios.isAxiosError`), some other `Error` instance, or anything else. -/
inductive ThrownValue where
  | axiosErr (response : Option BackendResponse) (message : String) (code : Option String)
  | errorObj (message : String)
  | otherValue
deriving Repr, DecidableEq

/-- The normalized `ApiError` shape (the `details` payload is carried as
the raw backend data). -/
structure ApiError where
  message : String
  status : Option Nat
  code : Option String
  details : Option BackendData
deriving Repr, DecidableEq

/-- JavaScript `a || b` on a `string | undefined` left operand: the left
value when present and non-empty, otherwise the right. -/
def jsOr (a : Option String) (b : String) : String :=
  match a with
  | some s => if s ≠ "" then s else b
  | none => b

/-- `handleApiError`: normalizes any thrown value to the `ApiError` shape,
mirroring the three branches of the source (axios error with the
`message || error || message || generic` chain, plain `Error`, unknown). -/
def handleApiError : ThrownValue → ApiError
  | .axiosErr response message code =>
      { message := jsOr ((response.bind (·.data)).bind (·.message))
          (jsOr ((response.bind (·.data)).bind (·.error))
            (jsOr (some message) "An unexpected error occurred")),
        status := response.map (·.status),
        code := code,
        details := response.bind (·.data) }
  | .errorObj message =>
      { message := message, status := none, code := none, details := none }
  | .otherValue =>
      { message := "An unknown error occurred", status := none, code := none, details := none }

/-- The query half of the `QueryClient` default options
(`queryClient.ts`). -/
structure QueryDefaults where
  staleTime : Nat
  gcTime : Nat
  retry : Nat
  retryDelay : Nat → Nat
  refetchOnWindowFocus : Bool
  refetchOnReconnect : Bool
  refetchOnMount : Bool

/-- The mutation half of the `QueryClient` default options. -/
structure MutationDefaults where
  retry : Nat
  retryDelay : Nat → Nat

/-- `defaultOptions.queries` of the repository's `queryClient`. -/
def queryClientQueries : QueryDefaults :=
  { staleTime := 60 * 1000
    gcTime := 5 * 60 * 1000
    retry := 1
    retryDelay := fun attemptIndex => min (1000 * 2 ^ attemptIndex) 30000
    refetchOnWindowFocus := false
    refetchOnReconnect := true
    refetchOnMount := true }

/-- `defaultOptions.mutations` of the repository's `queryClient`. -/
def queryClientMutations : MutationDefaults :=
  { retry := 0
    retryDelay := fun attemptIndex => min (1000 * 2 ^ attemptIndex) 30000 }

/-- The shape of a login response as `loginWithToken` reads it:
`{ token?, refreshToken? }`. -/
structure AuthTokenResponse where
  token : Option String
  refreshToken : Option String
deriving Repr, DecidableEq

/-- The storage effect of `loginWithToken` on a successful login: store
each token that is present (truthy) in the response. -/
def loginWithToken (s : Storage) (responseData : AuthTokenResponse) : Storage :=
  let s₁ :=
    if jsTruthy responseData.token then
      tokenManager.setToken s (responseData.token.getD "")
    else s
  if jsTruthy responseData.refreshToken then
    tokenManager.setRefreshToken s₁ (responseData.refreshToken.getD "")
  else s₁

/-! ## Theorems -/

/-- C10: `hasToken()` (and therefore `isAuthenticated()`) returns true iff
the stored access token is a non-null, non-empty string; when the
access-token entry holds the empty string, `hasToken()` returns false even
though an entry is present in storage. -/
theorem C10_hasToken_nonempty (s : Storage) :
    (tokenManager.hasToken s = true ↔
      ∃ t, tokenManager.getToken s = some t ∧ t ≠ "") ∧
    isAuthenticated s = tokenManager.hasToken s ∧
    tokenManager.hasToken ⟨some "", s.refreshToken⟩ = false := by
  refine ⟨?_, rfl, by simp [tokenManager.hasToken, tokenManager.getToken, jsTruthy]⟩
  cases h : s.authToken with
  | none => simp [tokenManager.hasToken, tokenManager.getToken, jsTruthy, h]
  | some t => simp [tokenManager.hasToken, tokenManager.getToken, jsTruthy, h]

/-- C9: the data-fetching defaults match the stated policies: queries are
fresh for 60 seconds, evicted after 5 minutes of inactivity, retried once
with a delay that doubles per attempt (1000·2^n ms) capped at a fixed
bound, refetched on reconnect and on mount but not on window refocus;
mutations are never automatically retried. -/
theorem C9_query_client_defaults :
    queryClientQueries.staleTime = 60 * 1000 ∧
    queryClientQueries.gcTime = 5 * 60 * 1000 ∧
    queryClientQueries.retry = 1 ∧
    (∀ n, queryClientQueries.retryDelay n = min (1000 * 2 ^ n) 30000) ∧
    (∀ n, queryClientQueries.retryDelay n ≤ 30000) ∧
    queryClientQueries.refetchOnWindowFocus = false ∧
    queryClientQueries.refetchOnReconnect = true ∧
    queryClientQueries.refetchOnMount = true ∧
    queryClientMutations.retry = 0 := by
  refine ⟨rfl, rfl, rfl, fun n => rfl, fun n => ?_, rfl, rfl, rfl, rfl⟩
  simp [queryClientQueries]

/-- C8: the request interceptor attaches the stored access token as a
bearer credential when one is present (non-null, non-empty), leaves the
request unchanged when none is present, and after a login that stores an
access token every subsequent request carries that token as its bearer
header. -/
theorem C8_request_interceptor_bearer (s : Storage) (c : Request)
    (t : String) (resp : AuthTokenResponse)
    (hpresent : tokenManager.getToken s = some t) (hne : t ≠ "")
    (hresp : resp.token = some t) :
    ((requestInterceptor s c).authHeader = some ("Bearer " ++ t) ∧
     (requestInterceptor s c).id = c.id ∧
     (requestInterceptor s c).retry = c.retry) ∧
    (∀ s' c', tokenManager.hasToken s' = false → requestInterceptor s' c' = c') ∧
    (requestInterceptor (loginWithToken s resp) c).authHeader
      = some ("Bearer " ++ t) := by
  refine ⟨?_, ?_, ?_⟩
  · simp [requestInterceptor, hpresent, hne]
  · intro s' c' h
    cases h' : s'.authToken with
    | none => simp [requestInterceptor, tokenManager.getToken, h']
    | some u =>
        have hu : u = "" := by
          simpa [tokenManager.hasToken, tokenManager.getToken, jsTruthy, h'] using h
        simp [requestInterceptor, tokenManager.getToken, h', hu]
  · have htr : jsTruthy resp.token = true := by simp [jsTruthy, hresp, hne]
    cases hrt : resp.refreshToken with
    | none =>
        simp [loginWithToken, htr, hresp, hrt, jsTruthy, requestInterceptor,
          tokenManager.setToken, tokenManager.getToken, hne]
    | some r =>
        by_cases hr : r = "" <;>
          simp [loginWithToken, htr, hresp, hrt, hr, jsTruthy, requestInterceptor,
            tokenManager.setToken, tokenManager.setRefreshToken,
            tokenManager.getToken, hne]

/-- C8 witness: the theorem at a concrete store, request and login
response. -/
theorem C8_request_interceptor_bearer_witness :
    (requestInterceptor ⟨some "tok", some "ref"⟩ ⟨7, none, false⟩).authHeader
      = some ("Bearer " ++ "tok") :=
  (C8_request_interceptor_bearer ⟨some "tok", some "ref"⟩ ⟨7, none, false⟩
    "tok" ⟨some "tok", some "ref2"⟩ rfl (by decide) rfl).1.1

/-- C6: when a 401 is handled in the Idle state and no (truthy) refresh
token is in the store, no refresh network call is made: both tokens are
cleared, the client is redirected to the login route, and the original
request fails with the original 401 error, with no retry and nothing
queued. -/
theorem C6_no_refresh_token_terminal (st : ClientState) (e : AxiosErrorInfo)
    (hidle : st.isRefreshing = false)
    (h401 : e.status = some 401) (hretry : e.config.retry = false)
    (hnort : jsTruthy (tokenManager.getRefreshToken st.storage) = false) :
    (handle401 st e).2 = .rejectAfterClear ∧
    (handle401 st e).2.isRefreshStart = false ∧
    (handle401 st e).1.storage = ⟨none, none⟩ ∧
    (handle401 st e).1.location = some "/login" ∧
    (handle401 st e).1.failedQueue = st.failedQueue := by
  cases h : tokenManager.getRefreshToken st.storage with
  | none =>
      simp [handle401, h401, hretry, hidle, h, StepResult.isRefreshStart,
        tokenManager.clearTokens]
  | some rt =>
      have hrt : rt = "" := by simpa [jsTruthy, h] using hnort
      simp [handle401, h401, hretry, hidle, h, hrt, StepResult.isRefreshStart,
        tokenManager.clearTokens]

/-- C6 witness: the theorem at a concrete state (access token present,
refresh-token entry absent) and a concrete 401. -/
theorem C6_no_refresh_token_terminal_witness :
    (handle401 ⟨⟨some "tok", none⟩, false, [], none⟩
        ⟨some 401, ⟨3, none, false⟩⟩).2 = .rejectAfterClear :=
  (C6_no_refresh_token_terminal ⟨⟨some "tok", none⟩, false, [], none⟩
    ⟨some 401, ⟨3, none, false⟩⟩ rfl rfl rfl (by decide)).1

/-- The message-preference chain exactly as the claim words it, for
comparison with `handleApiError`: the backend response's `message` field,
else its `error` field, else the transport-level error message, else one
fixed generic string `g` — a candidate that is absent or empty falls
through to the next. -/
def claimPreferredMessage (g : String) : ThrownValue → String
  | .axiosErr response message _ =>
      jsOr ((response.bind (·.data)).bind (·.message))
        (jsOr ((response.bind (·.data)).bind (·.error)) (jsOr (some message) g))
  | .errorObj message => jsOr (some message) g
  | .otherValue => g

/-- First non-empty candidate in a list of optional strings, else the
fallback; used to state the amended preference order. -/
def firstNonEmpty : List (Option String) → String → String
  | [], g => g
  | c :: cs, g =>
      match c with
      | some s => if s ≠ "" then s else firstNonEmpty cs g
      | none => firstNonEmpty cs g

/-- The amended message rule: axios errors follow the non-empty-preference
chain falling back to the generic `An unexpected error occurred`; a plain
`Error` yields its own message verbatim (even when empty, with no generic
fallback); any other thrown value yields `An unknown error occurred`. -/
def amendedMessage : ThrownValue → String
  | .axiosErr response message _ =>
      firstNonEmpty
        [(response.bind (·.data)).bind (·.message),
         (response.bind (·.data)).bind (·.error),
         some message]
        "An unexpected error occurred"
  | .errorObj message => message
  | .otherValue => "An unknown error occurred"

/-- C7 counterexample: no single fixed generic string makes the claimed
uniform preference chain agree with `handleApiError` on every input — a
plain `Error` with empty message is normalized to the empty message (no
generic fallback), while a non-`Error` value gets the (non-empty) generic;
and under the alternative reading in which a present-but-empty backend
`message` field is selected rather than skipped, the second conjunct
refutes the claim directly: the empty backend `message` field is skipped
in favor of the `error` field. -/
theorem C7_counterexample :
    (¬ ∃ g : String, ∀ v, (handleApiError v).message = claimPreferredMessage g v) ∧
    (handleApiError
        (.axiosErr (some ⟨500, some ⟨some "", some "boom"⟩⟩) "net" none)).message
      = "boom" := by
  constructor
  · rintro ⟨g, h⟩
    have h1 := h (.errorObj "")
    have h2 := h .otherValue
    simp [handleApiError, claimPreferredMessage, jsOr] at h1 h2
    have : ("" : String) = "An unknown error occurred" := by rw [h1, ← h2]
    exact absurd this (by decide)
  · rfl

/-- C7 amended: for axios errors the message is the first non-empty
candidate among backend `message`, backend `error` and the transport
message, falling back to a generic string; a non-axios `Error` yields its
own message verbatim (no fallback); other values yield a generic string.
The status field is set exactly when an HTTP response exists, so a network
timeout (axios error without a response, non-empty transport message)
yields no status and a non-empty message. -/
theorem C7_error_normalization (msg : String) (code : Option String)
    (hmsg : msg ≠ "") :
    (∀ v, (handleApiError v).message = amendedMessage v) ∧
    (∀ r m c, ((handleApiError (.axiosErr r m c)).status).isSome = r.isSome) ∧
    (∀ m, (handleApiError (.errorObj m)).status = none) ∧
    (handleApiError .otherValue).status = none ∧
    ((handleApiError (.axiosErr none msg code)).status = none ∧
     (handleApiError (.axiosErr none msg code)).message ≠ "") := by
  refine ⟨?_, ?_, fun m => rfl, rfl, ?_, ?_⟩
  · intro v
    cases v with
    | axiosErr response message c =>
        cases hdm : (response.bind (·.data)).bind (·.message) with
        | none =>
            cases hde : (response.bind (·.data)).bind (·.error) with
            | none => simp [handleApiError, amendedMessage, firstNonEmpty, jsOr, hdm, hde]
            | some e =>
                by_cases he : e = "" <;>
                  simp [handleApiError, amendedMessage, firstNonEmpty, jsOr, hdm, hde, he]
        | some d =>
            by_cases hd : d = "" <;>
              [skip; simp [handleApiError, amendedMessage, firstNonEmpty, jsOr, hdm, hd]]
            cases hde : (response.bind (·.data)).bind (·.error) with
            | none => simp [handleApiError, amendedMessage, firstNonEmpty, jsOr, hdm, hde, hd]
            | some e =>
                by_cases he : e = "" <;>
                  simp [handleApiError, amendedMessage, firstNonEmpty, jsOr, hdm, hde, hd, he]
    | errorObj message => rfl
    | otherValue => rfl
  · intro r m c
    cases r <;> simp [handleApiError]
  · rfl
  · simp [handleApiError, jsOr, hmsg]

/-- C7 witness: the amended theorem at the concrete timeout scenario. -/
theorem C7_error_normalization_witness :
    (handleApiError
        (.axiosErr none "timeout of 30000ms exceeded" (some "ECONNABORTED"))).status
        = none ∧
    (handleApiError
        (.axiosErr none "timeout of 30000ms exceeded" (some "ECONNABORTED"))).message
        ≠ "" :=
  (C7_error_normalization "timeout of 30000ms exceeded" (some "ECONNABORTED")
    (by decide)).2.2.2.2

/-- C2 counterexample: on the path where no refresh token exists, the
handler sets `isRefreshing` to true and then returns its rejection with
the flag still true — the `return Promise.reject(error)` at that point
precedes the `try`, so the `finally` that resets the flag is never
reached. Concretely: a 401 in the Idle state with an access token but no
refresh-token entry ends with the handler returning (`rejectAfterClear`)
while `isRefreshing` is still `true`. -/
theorem C2_counterexample :
    (handle401 ⟨⟨some "tok", none⟩, false, [], none⟩
        ⟨some 401, ⟨0, none, false⟩⟩).2 = .rejectAfterClear ∧
    (handle401 ⟨⟨some "tok", none⟩, false, [], none⟩
        ⟨some 401, ⟨0, none, false⟩⟩).1.isRefreshing = true := by
  constructor <;> rfl

/-- C2 amended: on the two paths where a refresh call is issued the flag
is reset to false (by the `finally`) before the handler's result reaches
the caller — whether the refresh succeeds or fails — but on the path
where no (truthy) refresh token exists the handler returns with the flag
still set to true. -/
theorem C2_flag_reset (st : ClientState) (e : AxiosErrorInfo)
    (hidle : st.isRefreshing = false)
    (h401 : e.status = some 401) (hretry : e.config.retry = false)
    (hnort : jsTruthy (tokenManager.getRefreshToken st.storage) = false) :
    (∀ s orig resp, (refreshSuccess s orig resp).1.isRefreshing = false) ∧
    (∀ s, (refreshFailure s).1.isRefreshing = false) ∧
    (handle401 st e).1.isRefreshing = true := by
  refine ⟨fun s orig resp => rfl, fun s => rfl, ?_⟩
  cases h : tokenManager.getRefreshToken st.storage with
  | none => simp [handle401, h401, hretry, hidle, h]
  | some rt =>
      have hrt : rt = "" := by simpa [jsTruthy, h] using hnort
      simp [handle401, h401, hretry, hidle, h, hrt]

/-- C2 witness: the amended theorem at a concrete Idle state with no
refresh token. -/
theorem C2_flag_reset_witness :
    (handle401 ⟨⟨some "live", none⟩, false, [], none⟩
        ⟨some 401, ⟨5, none, false⟩⟩).1.isRefreshing = true :=
  (C2_flag_reset ⟨⟨some "live", none⟩, false, [], none⟩
    ⟨some 401, ⟨5, none, false⟩⟩ rfl rfl rfl (by decide)).2.2

/-- C4 counterexample: a request released from the pending queue is
re-issued without the `_retry` marker (only the refresh-initiating request
is marked, at `originalRequest._retry = true`), so a second 401 on it does
not propagate unchanged: it re-enters the 401 handler and starts a fresh
refresh cycle. Concretely: request 1 is queued while a refresh is in
flight; the refresh succeeds and releases it; the re-issued request still
has the marker unset, and a second 401 on it yields `awaitingRefresh`
(a new refresh call), not `passThrough`. -/
theorem C4_counterexample :
    (Action.resolveQueued ⟨1, none, false⟩ "new"
        ∈ (refreshSuccess ⟨⟨some "old", some "r1"⟩, true, [⟨1, none, false⟩], none⟩
            ⟨0, none, true⟩ ⟨"new", some "r2"⟩).2.1) ∧
    (requestInterceptor
        (refreshSuccess ⟨⟨some "old", some "r1"⟩, true, [⟨1, none, false⟩], none⟩
            ⟨0, none, true⟩ ⟨"new", some "r2"⟩).1.storage
        ⟨1, none, false⟩).retry = false ∧
    (handle401
        (refreshSuccess ⟨⟨some "old", some "r1"⟩, true, [⟨1, none, false⟩], none⟩
            ⟨0, none, true⟩ ⟨"new", some "r2"⟩).1
        ⟨some 401,
          requestInterceptor
            (refreshSuccess ⟨⟨some "old", some "r1"⟩, true, [⟨1, none, false⟩], none⟩
                ⟨0, none, true⟩ ⟨"new", some "r2"⟩).1.storage
            ⟨1, none, false⟩⟩).2.isRefreshStart = true := by
  refine ⟨?_, rfl, rfl⟩
  simp [refreshSuccess, jsTruthy]

/-- C4 amended: only the request that initiates a refresh cycle carries
the per-request retry marker; for every request that does carry it, a
second 401 propagates the failure unchanged to the caller — same state,
no refresh started, nothing queued, no token mutation. Requests released
from the pending queue are re-issued with their marker unchanged (unset),
so this protection does not extend to them. -/
theorem C4_retry_marker_terminal (st : ClientState) (e : AxiosErrorInfo)
    (h401 : e.status = some 401) (hretry : e.config.retry = true) :
    handle401 st e = (st, .passThrough) ∧
    (∀ s c, (requestInterceptor s c).retry = c.retry) := by
  constructor
  · simp [handle401, h401, hretry]
  · intro s c
    cases h : tokenManager.getToken s with
    | none => simp [requestInterceptor, h]
    | some t => by_cases ht : t = "" <;> simp [requestInterceptor, h, ht]

/-- C4 witness: the amended theorem at a concrete marked request. -/
theorem C4_retry_marker_terminal_witness :
    handle401 ⟨⟨some "tok", some "ref"⟩, false, [], none⟩
        ⟨some 401, ⟨2, some "Bearer tok", true⟩⟩
      = (⟨⟨some "tok", some "ref"⟩, false, [], none⟩, .passThrough) :=
  (C4_retry_marker_terminal ⟨⟨some "tok", some "ref"⟩, false, [], none⟩
    ⟨some 401, ⟨2, some "Bearer tok", true⟩⟩ rfl rfl).1

/-- C3: the pending queue starts empty; a handler run either leaves it
unchanged or — only when `isRefreshing` is true — appends exactly the
failing request at the tail (the `queued` outcome); when the refresh
settles the queue is drained in insertion order with one settlement per
entry, all with the same outcome (all resolved with the new token on
success, all rejected on failure), and the queue is empty afterwards. -/
theorem C3_queue_lifecycle :
    (∀ s, (initialClientState s).failedQueue = []) ∧
    (∀ st e,
       (handle401 st e).1.failedQueue = st.failedQueue ∨
       (st.isRefreshing = true ∧
        (handle401 st e).1.failedQueue = st.failedQueue ++ [e.config] ∧
        (handle401 st e).2 = .queued)) ∧
    (∀ st orig resp,
       (refreshSuccess st orig resp).2.1.filter Action.isSettle
         = st.failedQueue.map (fun q => Action.resolveQueued q resp.token) ∧
       (refreshSuccess st orig resp).1.failedQueue = []) ∧
    (∀ st,
       (refreshFailure st).2.filter Action.isSettle
         = st.failedQueue.map Action.rejectQueued ∧
       (refreshFailure st).1.failedQueue = []) := by
  refine ⟨fun s => rfl, ?_, ?_, ?_⟩
  · intro st e
    by_cases hc : e.status = some 401 ∧ e.config.retry = false
    · by_cases hr : st.isRefreshing
      · exact Or.inr ⟨hr, by simp [handle401, hc.1, hc.2, hr], by simp [handle401, hc.1, hc.2, hr]⟩
      · left
        cases h : tokenManager.getRefreshToken st.storage with
        | none => simp [handle401, hc.1, hc.2, hr, h]
        | some rt => by_cases hrt : rt = "" <;> simp [handle401, hc.1, hc.2, hr, h, hrt]
    · left
      simp [handle401, hc]
  · intro st orig resp
    refine ⟨?_, rfl⟩
    by_cases hj : jsTruthy resp.refreshToken <;>
      simp [refreshSuccess, hj, Action.isSettle, List.filter_map, Function.comp_def]
  · intro st
    refine ⟨?_, rfl⟩
    simp [refreshFailure, Action.isSettle, List.filter_map, Function.comp_def]

/-- C5: when the refresh call succeeds, the new access token is written to
the store as the very first action of the continuation — strictly before
any queued request is released — and the new refresh token is stored when
the response carries one; afterwards every queued request is released with
the new token, the original failing request is re-issued with the new
token as its bearer credential, and any request re-issued through the
request interceptor against the updated store carries the new bearer
header. -/
theorem C5_token_before_release (st : ClientState) (orig : Request)
    (resp : RefreshResponse) (htok : resp.token ≠ "") :
    (refreshSuccess st orig resp).2.1.head? = some (Action.writeToken resp.token) ∧
    (∀ q ∈ st.failedQueue,
       Action.resolveQueued q resp.token ∈ (refreshSuccess st orig resp).2.1) ∧
    tokenManager.getToken (refreshSuccess st orig resp).1.storage = some resp.token ∧
    (jsTruthy resp.refreshToken = true →
       tokenManager.getRefreshToken (refreshSuccess st orig resp).1.storage
         = some (resp.refreshToken.getD "")) ∧
    (refreshSuccess st orig resp).2.2.authHeader = some ("Bearer " ++ resp.token) ∧
    (∀ c, (requestInterceptor (refreshSuccess st orig resp).1.storage c).authHeader
        = some ("Bearer " ++ resp.token)) := by
  have hstore : (refreshSuccess st orig resp).1.storage.authToken = some resp.token := by
    by_cases hj : jsTruthy resp.refreshToken <;>
      simp [refreshSuccess, hj, tokenManager.setToken, tokenManager.setRefreshToken]
  refine ⟨?_, ?_, hstore, ?_, rfl, ?_⟩
  · by_cases hj : jsTruthy resp.refreshToken <;> simp [refreshSuccess, hj]
  · intro q hq
    by_cases hj : jsTruthy resp.refreshToken <;>
      simp [refreshSuccess, hj] <;> exact hq
  · intro hj
    simp [refreshSuccess, hj, tokenManager.setRefreshToken, tokenManager.getRefreshToken]
  · intro c
    simp [requestInterceptor, tokenManager.getToken, hstore, htok]

/-- C5 witness: the theorem at a concrete in-flight state with two queued
requests and a refresh response carrying both tokens. -/
theorem C5_token_before_release_witness :
    (refreshSuccess ⟨⟨some "old", some "r1"⟩, true, [⟨1, none, false⟩, ⟨2, none, false⟩], none⟩
        ⟨0, some "Bearer old", true⟩ ⟨"new", some "r2"⟩).2.1.head?
      = some (Action.writeToken "new") :=
  (C5_token_before_release
    ⟨⟨some "old", some "r1"⟩, true, [⟨1, none, false⟩, ⟨2, none, false⟩], none⟩
    ⟨0, some "Bearer old", true⟩ ⟨"new", some "r2"⟩ (by decide)).1

/-- While a refresh is in flight, every further 401 on an unmarked request
is queued: a batch of such errors appends their requests to the queue in
arrival order and changes nothing else. -/
lemma runBatch_refreshing (st : ClientState) (events : List AxiosErrorInfo)
    (hr : st.isRefreshing = true)
    (h401 : ∀ x ∈ events, x.status = some 401 ∧ x.config.retry = false) :
    runBatch st events
      = ({ st with failedQueue := st.failedQueue ++ events.map (·.config) },
         events.map fun _ => StepResult.queued) := by
  induction events generalizing st with
  | nil => simp [runBatch]
  | cons e es ih =>
      have he := h401 e (List.mem_cons_self e es)
      have hstep : handle401 st e
          = ({ st with failedQueue := st.failedQueue ++ [e.config] }, .queued) := by
        simp [handle401, he.1, he.2, hr]
      have hrest := ih { st with failedQueue := st.failedQueue ++ [e.config] } hr
        (fun x hx => h401 x (List.mem_cons_of_mem e hx))
      simp [runBatch, hstep, hrest, List.append_assoc]

/-- C1: starting from the Idle state with a (truthy) refresh token in the
store, a batch of 401 responses on unmarked requests issues exactly one
refresh network call — the first handler starts it (after marking its
request) — while every later handler queues its request instead; the
N−1 queued requests sit in the queue in arrival order, and when that
single refresh settles all of them are released together (all resolved on
success, all rejected on failure) leaving the queue empty. -/
theorem C1_single_refresh (s : Storage) (e : AxiosErrorInfo)
    (es : List AxiosErrorInfo)
    (h401 : ∀ x ∈ e :: es, x.status = some 401 ∧ x.config.retry = false)
    (hrt : jsTruthy (tokenManager.getRefreshToken s) = true) :
    (runBatch (initialClientState s) (e :: es)).2
      = StepResult.awaitingRefresh ((tokenManager.getRefreshToken s).getD "")
          { e.config with retry := true }
        :: es.map (fun _ => StepResult.queued) ∧
    ((runBatch (initialClientState s) (e :: es)).2.countP
        StepResult.isRefreshStart) = 1 ∧
    (runBatch (initialClientState s) (e :: es)).1.failedQueue
      = es.map (·.config) ∧
    (runBatch (initialClientState s) (e :: es)).1.isRefreshing = true ∧
    (∀ orig resp,
       (refreshSuccess (runBatch (initialClientState s) (e :: es)).1 orig resp).2.1.filter
           Action.isSettle
         = es.map (fun x => Action.resolveQueued x.config resp.token) ∧
       (refreshSuccess (runBatch (initialClientState s) (e :: es)).1 orig resp).1.failedQueue
         = []) ∧
    ((refreshFailure (runBatch (initialClientState s) (e :: es)).1).2.filter
        Action.isSettle
      = es.map (fun x => Action.rejectQueued x.config) ∧
     (refreshFailure (runBatch (initialClientState s) (e :: es)).1).1.failedQueue
       = []) := by
  obtain ⟨rt, hsome, hne⟩ : ∃ rt, tokenManager.getRefreshToken s = some rt ∧ rt ≠ "" := by
    cases h : tokenManager.getRefreshToken s with
    | none => rw [h] at hrt; exact absurd hrt (by simp [jsTruthy])
    | some rt =>
        refine ⟨rt, rfl, ?_⟩
        rw [h] at hrt
        simpa [jsTruthy] using hrt
  have he := h401 e (List.mem_cons_self e es)
  have hstep : handle401 (initialClientState s) e
      = (⟨s, true, [], none⟩,
         .awaitingRefresh rt { e.config with retry := true }) := by
    simp [handle401, initialClientState, he.1, he.2, hsome, hne]
  have hrest := runBatch_refreshing ⟨s, true, [], none⟩ es rfl
    (fun x hx => h401 x (List.mem_cons_of_mem e hx))
  have hbatch : runBatch (initialClientState s) (e :: es)
      = (⟨s, true, es.map (·.config), none⟩,
         .awaitingRefresh rt { e.config with retry := true }
           :: es.map fun _ => StepResult.queued) := by
    simp [runBatch, hstep, hrest]
  refine ⟨?_, ?_, ?_, ?_, ?_, ?_⟩
  · rw [hbatch, hsome]
    rfl
  · rw [hbatch]
    simp [List.countP_cons, StepResult.isRefreshStart, List.countP_map,
      Function.comp_def]
  · rw [hbatch]
  · rw [hbatch]
  · intro orig resp
    rw [hbatch]
    constructor
    · by_cases hj : jsTruthy resp.refreshToken <;>
        simp [refreshSuccess, hj, Action.isSettle, List.filter_map, Function.comp_def]
    · rfl
  · rw [hbatch]
    constructor
    · simp [refreshFailure, Action.isSettle, List.filter_map, Function.comp_def]
    · rfl

/-- C1 witness: three simultaneous 401s from the Idle state with a refresh
token present — exactly one refresh call is counted. -/
theorem C1_single_refresh_witness :
    ((runBatch (initialClientState ⟨some "tok", some "ref"⟩)
        [⟨some 401, ⟨0, none, false⟩⟩, ⟨some 401, ⟨1, none, false⟩⟩,
         ⟨some 401, ⟨2, none, false⟩⟩]).2.countP
      StepResult.isRefreshStart) = 1 :=
  (C1_single_refresh ⟨some "tok", some "ref"⟩ ⟨some 401, ⟨0, none, false⟩⟩
    [⟨some 401, ⟨1, none, false⟩⟩, ⟨some 401, ⟨2, none, false⟩⟩]
    (by decide) (by decide)).2.1

end AutoPartFe
